import Mathlib

/-!
Verification of the ARP table-management engine (handler.go).

The definitions below are a shallow embedding of the packet-driven state
machine of the repository: the per-host `Entry` table, the pure decision
functions `actionUpdateClient` and `actionRequestInHuntState`, and one
iteration of the `ListenAndServe` receive loop (`processPacket`).  Machine
state (the mutex-guarded table of `*Entry` pointers) is modelled by explicit
state passing: an in-place mutation of the sender entry becomes a `List.set`
at the sender's index.  Timestamps are abstract naturals; channel sends and
log lines become explicit event lists in the step result.
-/

namespace Arp

/-- IPv4 address, four bytes.  The source stores IPs as net.IP byte slices and
compares them with net.IP.Equal; ARP carries 4-byte IPv4 addresses, so the
model fixes the canonical 4-byte form, under which net.IP.Equal is equality
and equality with net.IPv4zero is equality with 0.0.0.0. -/
structure IPv4 where
  b0 : Nat
  b1 : Nat
  b2 : Nat
  b3 : Nat
deriving DecidableEq

/-- net.IPv4zero, the unspecified address 0.0.0.0. -/
def IPv4zero : IPv4 := ⟨0, 0, 0, 0⟩

/-- net.IP.IsLinkLocalUnicast for an IPv4 address: the 169.254.0.0/16 block. -/
def IPv4.isLinkLocalUnicast (ip : IPv4) : Bool :=
  ip.b0 == 169 && ip.b1 == 254

/-- Hardware (MAC) address as a byte list, modelling net.HardwareAddr; the zero
value of the Go type is the nil slice, and bytes.Equal is list equality (it
identifies nil with the empty slice). -/
abbrev HardwareAddr := List Nat

/-- Modelled from the spec: `EthernetBroadcast` is declared outside
src/handler.go; per the spec the virtual-host reply is addressed to the
network broadcast hardware address ff:ff:ff:ff:ff:ff. -/
def EthernetBroadcast : HardwareAddr := [255, 255, 255, 255, 255, 255]

/-- Modelled from the spec: the Entry states Normal, Hunt and VirtualHost
(spec section 4.3); the state constants are declared outside src/handler.go. -/
inductive EntryState where
  | StateNormal
  | StateHunt
  | StateVirtualHost
deriving DecidableEq

/-- Modelled from the spec: the Entry record (spec section 3) with fields MAC,
IP, State, Online, LastUpdate; the type is declared outside src/handler.go.
LastUpdate is an abstract timestamp. -/
structure Entry where
  MAC : HardwareAddr
  IP : IPv4
  State : EntryState
  Online : Bool
  LastUpdate : Nat
deriving DecidableEq

/-- Subnet descriptor (net.IPNet): an address plus mask bytes; carried in the
configuration and never consulted on the modelled paths. -/
structure IPNet where
  ip : IPv4
  mask : List Nat
deriving DecidableEq

/-- configuration, src/handler.go lines 14-21. -/
structure configuration where
  NIC : String
  HostMAC : HardwareAddr
  HostIP : IPv4
  RouterIP : IPv4
  RouterMAC : HardwareAddr
  HomeLAN : IPNet
deriving DecidableEq

/-- Handler state relevant to the modelled paths (src/handler.go lines 24-32):
the Entry table, the configuration, and whether a notification channel has
been registered (the channel itself is modelled by the Boolean; line 345
consults it before sending). -/
structure Handler where
  table : List Entry
  config : configuration
  notification : Bool
deriving DecidableEq

/-- NewHandler, src/handler.go lines 57-82 (pure part): empty table and the
given configuration fields.  RouterMAC is never assigned there, so it keeps
the zero value of net.HardwareAddr (the nil slice, here `[]`); no
notification channel is registered yet. -/
def NewHandler (nic : String) (hostMAC : HardwareAddr) (hostIP : IPv4)
    (routerIP : IPv4) (homeLAN : IPNet) : Handler :=
  { table := []
    config :=
      { NIC := nic, HostMAC := hostMAC, HostIP := hostIP, RouterIP := routerIP,
        RouterMAC := [], HomeLAN := homeLAN }
    notification := false }

/-- actionUpdateClient, src/handler.go lines 113-136.  Returns the reported
change count together with the (possibly updated) entry; the in-place
mutation of `client.IP` / `client.State` becomes a functional update.
dupIP only deep-copies the slice and is the identity here. -/
def actionUpdateClient (cfg : configuration) (client : Entry)
    (senderMAC : HardwareAddr) (senderIP : IPv4) : Nat × Entry :=
  if (client.IP = senderIP ∧ client.Online = true) ∨
      senderIP = IPv4zero ∨
      senderMAC = cfg.RouterMAC ∨
      senderIP = cfg.HostIP then
    (0, client)
  else
    (1, { client with IP := senderIP, State := EntryState.StateNormal })

/-- actionRequestInHuntState, src/handler.go lines 140-181.  The third
component records whether a non-nil error was returned (only on the path
where the inner actionUpdateClient reports no change). -/
def actionRequestInHuntState (cfg : configuration) (client : Entry)
    (senderIP : IPv4) (targetIP : IPv4) : Nat × Entry × Bool :=
  let ip := client.IP
  if ¬ senderIP = IPv4zero ∧ ¬ senderIP = targetIP then
    (0, client, false)
  else
    if ¬ ip = targetIP then
      let r := actionUpdateClient cfg client client.MAC targetIP
      if ¬ r.1 = 1 then (0, r.2, true)
      else (r.1, r.2, false)
    else
      (0, client, false)

/-- Modelled from the spec: `findMACLocked` is declared outside
src/handler.go; per the spec, MAC is the sole lookup key and the table holds
at most one Entry per MAC.  The source returns a `*Entry` aliasing the table
slot; to model in-place mutation we return the slot's index instead. -/
def findMACLocked (table : List Entry) (mac : HardwareAddr) : Option Nat :=
  table.findIdx? (fun e => e.MAC == mac)

/-- Modelled from the spec: `FindVirtualIP` is declared outside
src/handler.go; per the spec, IP is a secondary lookup key used only for
VirtualHost entries, so the lookup returns the first Entry in VirtualHost
state carrying the requested IP. -/
def FindVirtualIP (table : List Entry) (ip : IPv4) : Option Entry :=
  table.find? (fun e => decide (e.State = EntryState.StateVirtualHost ∧ e.IP = ip))

/-- Modelled from the spec: `arpTableAppendLocked` is declared outside
src/handler.go; per spec section 4.1, append assigns Online=false,
LastUpdate=now and the requested State, and insertion order is first-seen
order (so the new Entry goes to the end). -/
def arpTableAppendLocked (table : List Entry) (state : EntryState)
    (mac : HardwareAddr) (ip : IPv4) (now : Nat) : List Entry :=
  table ++ [{ MAC := mac, IP := ip, State := state, Online := false, LastUpdate := now }]

/-- ARP operation of a packet (marp.OperationRequest / marp.OperationReply). -/
inductive Operation where
  | OperationRequest
  | OperationReply
deriving DecidableEq

/-- Structured ARP packet as delivered by the transport collaborator. -/
structure Packet where
  Op : Operation
  SenderHardwareAddr : HardwareAddr
  SenderIP : IPv4
  TargetHardwareAddr : HardwareAddr
  TargetIP : IPv4
deriving DecidableEq

/-- Modelled from the spec: one ARP reply frame emitted through `c.reply`
(declared outside src/handler.go), recorded with the argument order of the
call site `c.reply(target.MAC, target.IP, EthernetBroadcast, target.IP)`:
source MAC/IP then destination MAC/IP. -/
structure ReplyFrame where
  srcMAC : HardwareAddr
  srcIP : IPv4
  dstMAC : HardwareAddr
  dstIP : IPv4
deriving DecidableEq

/-- One state-change event produced by the notify block (src/handler.go lines
337-348): the entry as logged/sent, and whether this was an online
transition (Online flipped false to true) as opposed to an IP change. -/
structure NotifyEvent where
  entry : Entry
  wentOnline : Bool
deriving DecidableEq

/-- Result of one iteration of the receive loop: the new handler state, the
state-change events of the notify block, and the reply frames sent. -/
structure StepResult where
  handler : Handler
  events : List NotifyEvent
  replies : List ReplyFrame
deriving DecidableEq

/-- Channel sends performed by the notify block: a copy of the sender entry
is sent only when a notification channel is registered (src/handler.go
line 345). -/
def sentNotifications (c : Handler) (r : StepResult) : List Entry :=
  if c.notification = true then r.events.map NotifyEvent.entry else []

/-- The operation/state dispatch switch of the receive loop (src/handler.go
lines 277-335), acting on the sender entry after its LastUpdate refresh.
Returns the added change count, the sender entry after dispatch, and the
reply frames sent.  The default branches only log and change nothing; they
are unreachable for the VirtualHost state, which is filtered earlier. -/
def dispatch (cfg : configuration) (table : List Entry) (sender : Entry)
    (packet : Packet) : Nat × Entry × List ReplyFrame :=
  match packet.Op with
  | Operation.OperationRequest =>
    match FindVirtualIP table packet.TargetIP with
    | some target =>
      (0, sender, [⟨target.MAC, target.IP, EthernetBroadcast, target.IP⟩])
    | none =>
      match sender.State with
      | EntryState.StateHunt =>
        let r := actionRequestInHuntState cfg sender packet.SenderIP packet.TargetIP
        (r.1, r.2.1, [])
      | EntryState.StateNormal =>
        let r := actionUpdateClient cfg sender packet.SenderHardwareAddr packet.SenderIP
        (r.1, r.2, [])
      | EntryState.StateVirtualHost => (0, sender, [])
  | Operation.OperationReply =>
    match sender.State with
    | EntryState.StateNormal =>
      let r := actionUpdateClient cfg sender packet.SenderHardwareAddr packet.SenderIP
      (r.1, r.2, [])
    | EntryState.StateHunt =>
      if ¬ packet.SenderIP = IPv4zero ∧ ¬ packet.SenderIP = sender.IP then
        let r := actionUpdateClient cfg sender packet.SenderHardwareAddr packet.SenderIP
        (r.1, r.2, [])
      else (0, sender, [])
    | EntryState.StateVirtualHost => (0, sender, [])

/-- The part of the receive loop that runs once the sender entry is known
(src/handler.go lines 266-348), with `idx` the sender's table index and
`notify0` the change count accumulated so far (1 when the entry was just
created).  Discards the frame for VirtualHost senders, refreshes LastUpdate,
dispatches, and runs the notify block. -/
def processFound (c : Handler) (now : Nat) (packet : Packet) (idx : Nat)
    (notify0 : Nat) : StepResult :=
  match c.table[idx]? with
  | none => ⟨c, [], []⟩
  | some sender0 =>
    if sender0.State = EntryState.StateVirtualHost then
      ⟨c, [], []⟩
    else
      let sender1 : Entry := { sender0 with LastUpdate := now }
      let table1 := c.table.set idx sender1
      let d := dispatch c.config table1 sender1 packet
      let notify := notify0 + d.1
      let sender2 := d.2.1
      if 0 < notify then
        if sender2.Online = false then
          ⟨{ c with table := table1.set idx { sender2 with Online := true } },
            [⟨{ sender2 with Online := true }, true⟩], d.2.2⟩
        else
          ⟨{ c with table := table1.set idx sender2 }, [⟨sender2, false⟩], d.2.2⟩
      else
        ⟨{ c with table := table1.set idx sender2 }, [], d.2.2⟩

/-- One iteration of the ListenAndServe receive loop (src/handler.go lines
233-349) for a successfully received packet: link-local filtering, sender
lookup, probe suppression, new-entry creation, then `processFound`. -/
def processPacket (c : Handler) (now : Nat) (packet : Packet) : StepResult :=
  if packet.SenderIP.isLinkLocalUnicast = true ∨ packet.TargetIP.isLinkLocalUnicast = true then
    ⟨c, [], []⟩
  else
    match findMACLocked c.table packet.SenderHardwareAddr with
    | none =>
      if packet.Op = Operation.OperationRequest ∧ packet.SenderIP = IPv4zero then
        ⟨c, [], []⟩
      else
        let table0 := arpTableAppendLocked c.table EntryState.StateNormal
          packet.SenderHardwareAddr packet.SenderIP now
        processFound { c with table := table0 } now packet c.table.length 1
    | some idx => processFound c now packet idx 0

/-- Standard concrete configuration used by witnesses: host 192.168.0.1,
router 192.168.0.254, RouterMAC at its zero value as left by NewHandler. -/
def cfgFix : configuration :=
  { NIC := "eth0", HostMAC := [1], HostIP := ⟨192, 168, 0, 1⟩,
    RouterIP := ⟨192, 168, 0, 254⟩, RouterMAC := [],
    HomeLAN := ⟨⟨192, 168, 0, 0⟩, [255, 255, 255, 0]⟩ }

/-- Concrete entry in Hunt state holding 192.168.0.5. -/
def huntClient : Entry := ⟨[2], ⟨192, 168, 0, 5⟩, EntryState.StateHunt, true, 0⟩

/-- Concrete virtual-host entry impersonating 192.168.0.9. -/
def vHost : Entry := ⟨[9], ⟨192, 168, 0, 9⟩, EntryState.StateVirtualHost, false, 0⟩

/-- Concrete online tracked entry at 192.168.0.3. -/
def obsClient : Entry := ⟨[3], ⟨192, 168, 0, 3⟩, EntryState.StateNormal, true, 0⟩

/-- Reply frame repeating obsClient's own MAC/IP binding. -/
def replySame : Packet :=
  ⟨Operation.OperationReply, [3], ⟨192, 168, 0, 3⟩, [1], ⟨192, 168, 0, 1⟩⟩

lemma find?_set_of_not (ptest : Entry → Bool) :
    ∀ (table : List Entry) (idx : Nat) (s s2 : Entry),
      table[idx]? = some s → ptest s = false → ptest s2 = false →
      (table.set idx s2).find? ptest = table.find? ptest := by
  intro table
  induction table with
  | nil => intro idx s s2 h _ _; simp at h
  | cons a l ih =>
    intro idx s s2 hget hs hs2
    cases idx with
    | zero =>
      simp only [List.getElem?_cons_zero, Option.some.injEq] at hget
      subst hget
      simp [List.set, List.find?, hs, hs2]
    | succ n =>
      simp only [List.getElem?_cons_succ] at hget
      simp only [List.set]
      cases hpa : ptest a with
      | true => simp [List.find?, hpa]
      | false =>
        simp [List.find?, hpa]
        exact ih n s s2 hget hs hs2

lemma set_concat_length {α : Type _} (l : List α) (a b : α) :
    (l ++ [a]).set l.length b = l ++ [b] := by
  rw [List.set_append_right _ _ (Nat.le_refl _)]
  simp

lemma getq_lt {α : Type _} {l : List α} {i : Nat} {a : α} (h : l[i]? = some a) :
    i < l.length := by
  rcases List.getElem?_eq_some_iff.1 h with ⟨h1, _⟩
  exact h1

lemma actionUpdateClient_snd_fresh (cfg : configuration) (m senderMAC : HardwareAddr)
    (i : IPv4) (nw : Nat) :
    (actionUpdateClient cfg ⟨m, i, EntryState.StateNormal, false, nw⟩ senderMAC i).2 =
      ⟨m, i, EntryState.StateNormal, false, nw⟩ := by
  unfold actionUpdateClient
  split <;> rfl

lemma actionUpdateClient_online (cfg : configuration) (client : Entry)
    (senderMAC : HardwareAddr) (senderIP : IPv4) :
    ((actionUpdateClient cfg client senderMAC senderIP).2).Online = client.Online := by
  unfold actionUpdateClient
  split <;> rfl

lemma actionRequestInHuntState_online (cfg : configuration) (client : Entry)
    (senderIP targetIP : IPv4) :
    ((actionRequestInHuntState cfg client senderIP targetIP).2.1).Online = client.Online := by
  simp only [actionRequestInHuntState]
  split
  · rfl
  · split
    · split
      · exact actionUpdateClient_online cfg client client.MAC targetIP
      · exact actionUpdateClient_online cfg client client.MAC targetIP
    · rfl

lemma dispatch_online (cfg : configuration) (table : List Entry) (sender : Entry)
    (packet : Packet) :
    ((dispatch cfg table sender packet).2.1).Online = sender.Online := by
  rcases hOp : packet.Op with _ | _
  · rcases hv : FindVirtualIP table packet.TargetIP with _ | target
    · rcases hs : sender.State with _ | _ | _
      · simp only [dispatch, hOp, hv, hs]
        exact actionUpdateClient_online cfg sender packet.SenderHardwareAddr packet.SenderIP
      · simp only [dispatch, hOp, hv, hs]
        exact actionRequestInHuntState_online cfg sender packet.SenderIP packet.TargetIP
      · simp only [dispatch, hOp, hv, hs]
    · simp only [dispatch, hOp, hv]
  · rcases hs : sender.State with _ | _ | _
    · simp only [dispatch, hOp, hs]
      exact actionUpdateClient_online cfg sender packet.SenderHardwareAddr packet.SenderIP
    · simp only [dispatch, hOp, hs]
      split
      · exact actionUpdateClient_online cfg sender packet.SenderHardwareAddr packet.SenderIP
      · rfl
    · simp only [dispatch, hOp, hs]

lemma processFound_online (c : Handler) (now : Nat) (p : Packet) (idx notify0 : Nat)
    (i : Nat) (e : Entry) (hget : c.table[i]? = some e) (hOn : e.Online = true) :
    ∃ e2, (processFound c now p idx notify0).handler.table[i]? = some e2 ∧ e2.Online = true := by
  unfold processFound
  split
  next h0 => exact ⟨e, hget, hOn⟩
  next sender0 h0 =>
    split
    next hvirt => exact ⟨e, hget, hOn⟩
    next hvirt =>
      dsimp only
      by_cases hi : i = idx
      · subst hi
        rw [hget] at h0
        injection h0 with h0
        subst h0
        have hlt : i < c.table.length := getq_lt hget
        have hon1 : (dispatch c.config (c.table.set i { e with LastUpdate := now })
            { e with LastUpdate := now } p).2.1.Online = true := by
          rw [dispatch_online]
          exact hOn
        split
        · split
          next hoff =>
            rw [hon1] at hoff
            cases hoff
          next hoff =>
            refine ⟨_, ?_, hon1⟩
            rw [List.set_set]
            exact List.getElem?_set_eq_of_lt _ (by simpa using hlt)
        · refine ⟨_, ?_, hon1⟩
          rw [List.set_set]
          exact List.getElem?_set_eq_of_lt _ (by simpa using hlt)
      · have hne : idx ≠ i := fun hc => hi hc.symm
        split
        · split
          · refine ⟨e, ?_, hOn⟩
            rw [List.set_set, List.getElem?_set_ne hne]
            exact hget
          · refine ⟨e, ?_, hOn⟩
            rw [List.set_set, List.getElem?_set_ne hne]
            exact hget
        · refine ⟨e, ?_, hOn⟩
          rw [List.set_set, List.getElem?_set_ne hne]
          exact hget

/-- Claim C1: for every table Entry and observed sender, actionUpdateClient
returns 0 and leaves the Entry unchanged whenever the sender IP equals the
configured host IP or the sender MAC equals the configured router MAC, even
when the sender IP differs from the stored IP, for every Handler produced by
NewHandler. -/
theorem actionUpdateClient_self_gateway_immunity
    (nic : String) (hostMAC : HardwareAddr) (hostIP routerIP : IPv4) (homeLAN : IPNet)
    (client : Entry) (senderMAC : HardwareAddr) (senderIP : IPv4)
    (h : senderIP = (NewHandler nic hostMAC hostIP routerIP homeLAN).config.HostIP ∨
      senderMAC = (NewHandler nic hostMAC hostIP routerIP homeLAN).config.RouterMAC) :
    actionUpdateClient (NewHandler nic hostMAC hostIP routerIP homeLAN).config
      client senderMAC senderIP = (0, client) := by
  unfold actionUpdateClient
  rcases h with h | h
  · rw [if_pos (Or.inr (Or.inr (Or.inr h)))]
  · rw [if_pos (Or.inr (Or.inr (Or.inl h)))]

/-- Spot check of `actionUpdateClient_self_gateway_immunity` on a concrete
handler, entry and frame: sender IP is the host IP, stored IP differs. -/
theorem actionUpdateClient_self_gateway_immunity_witness :
    ((⟨192, 168, 0, 1⟩ : IPv4) =
        (NewHandler "eth0" [1] ⟨192, 168, 0, 1⟩ ⟨192, 168, 0, 254⟩
          ⟨⟨192, 168, 0, 0⟩, [255, 255, 255, 0]⟩).config.HostIP ∨
      ([7] : HardwareAddr) =
        (NewHandler "eth0" [1] ⟨192, 168, 0, 1⟩ ⟨192, 168, 0, 254⟩
          ⟨⟨192, 168, 0, 0⟩, [255, 255, 255, 0]⟩).config.RouterMAC) ∧
    actionUpdateClient
        (NewHandler "eth0" [1] ⟨192, 168, 0, 1⟩ ⟨192, 168, 0, 254⟩
          ⟨⟨192, 168, 0, 0⟩, [255, 255, 255, 0]⟩).config
        ⟨[7], ⟨192, 168, 0, 9⟩, EntryState.StateNormal, true, 4⟩ [7] ⟨192, 168, 0, 1⟩ =
      (0, ⟨[7], ⟨192, 168, 0, 9⟩, EntryState.StateNormal, true, 4⟩) :=
  ⟨Or.inl (by decide),
    actionUpdateClient_self_gateway_immunity "eth0" [1] ⟨192, 168, 0, 1⟩ ⟨192, 168, 0, 254⟩
      ⟨⟨192, 168, 0, 0⟩, [255, 255, 255, 0]⟩
      ⟨[7], ⟨192, 168, 0, 9⟩, EntryState.StateNormal, true, 4⟩ [7] ⟨192, 168, 0, 1⟩
      (Or.inl (by decide))⟩

/-- Claim C2 counterexample: an announcement (senderIP = targetIP = B) whose
new address B is the engine's own host IP, with B different from the stored
IP, is a probe-or-announcement with a changed target IP, yet
actionRequestInHuntState reports 0 changes and leaves the entry untouched
(returning an error) instead of updating the IP to B and reporting one
change, because the inner actionUpdateClient refuses IPs equal to the host
IP. -/
theorem actionRequestInHuntState_hostIP_cex :
    huntClient.State = EntryState.StateHunt ∧
    ¬ huntClient.IP = ⟨192, 168, 0, 1⟩ ∧
    actionRequestInHuntState cfgFix huntClient ⟨192, 168, 0, 1⟩ ⟨192, 168, 0, 1⟩ =
      (0, huntClient, true) := by decide

/-- Claim C2 (amended): for an Entry in Hunt state, (a) a request whose
sender IP is neither the unspecified address nor equal to the target IP
leaves the Entry unchanged with no change reported; (b) a probe or
announcement whose target IP B differs from the stored IP — provided B is
not the unspecified address, not the configured host IP, and the Entry's MAC
is not the configured router MAC — updates the Entry's IP to B, returns it
to Normal state and reports exactly one change; (c) an announcement still
carrying the stored IP reports no change. -/
theorem actionRequestInHuntState_cases (cfg : configuration) (client : Entry)
    (senderIP targetIP : IPv4) (_hstate : client.State = EntryState.StateHunt) :
    (¬ senderIP = IPv4zero → ¬ senderIP = targetIP →
      actionRequestInHuntState cfg client senderIP targetIP = (0, client, false)) ∧
    ((senderIP = IPv4zero ∨ senderIP = targetIP) → ¬ client.IP = targetIP →
      ¬ targetIP = IPv4zero → ¬ client.MAC = cfg.RouterMAC → ¬ targetIP = cfg.HostIP →
      actionRequestInHuntState cfg client senderIP targetIP =
        (1, { client with IP := targetIP, State := EntryState.StateNormal }, false)) ∧
    (senderIP = targetIP → client.IP = targetIP →
      actionRequestInHuntState cfg client senderIP targetIP = (0, client, false)) := by
  refine ⟨?_, ?_, ?_⟩
  · intro h1 h2
    unfold actionRequestInHuntState
    rw [if_pos ⟨h1, h2⟩]
  · intro hrel hnew hz hrm hhost
    have hcond : ¬ (¬ senderIP = IPv4zero ∧ ¬ senderIP = targetIP) := by
      rcases hrel with h | h
      · exact fun hc => hc.1 h
      · exact fun hc => hc.2 h
    have hupd : actionUpdateClient cfg client client.MAC targetIP =
        (1, { client with IP := targetIP, State := EntryState.StateNormal }) := by
      unfold actionUpdateClient
      rw [if_neg]
      rintro (⟨hip, _⟩ | h | h | h)
      exacts [hnew hip, hz h, hrm h, hhost h]
    unfold actionRequestInHuntState
    rw [if_neg hcond, if_pos hnew, hupd]
    simp
  · intro h1 h2
    unfold actionRequestInHuntState
    rw [if_neg (fun hc => hc.2 h1), if_neg (not_not_intro h2)]

/-- Spot check of `actionRequestInHuntState_cases` part (b): an announcement
moving the hunted client from 192.168.0.5 to 192.168.0.8 updates the entry
and reports one change. -/
theorem actionRequestInHuntState_cases_witness :
    huntClient.State = EntryState.StateHunt ∧
    actionRequestInHuntState cfgFix huntClient ⟨192, 168, 0, 8⟩ ⟨192, 168, 0, 8⟩ =
      (1, { huntClient with IP := ⟨192, 168, 0, 8⟩, State := EntryState.StateNormal }, false) :=
  ⟨by decide,
    (actionRequestInHuntState_cases cfgFix huntClient ⟨192, 168, 0, 8⟩ ⟨192, 168, 0, 8⟩
        (by decide)).2.1
      (Or.inr rfl) (by decide) (by decide) (by decide) (by decide)⟩

/-- Claim C6: a request from a MAC absent from the table whose sender IP is
the unspecified address (an ACD probe) leaves the handler unchanged and
produces no event and no reply. -/
theorem processPacket_probe_ignored (c : Handler) (now : Nat) (p : Packet)
    (hf : findMACLocked c.table p.SenderHardwareAddr = none)
    (hop : p.Op = Operation.OperationRequest)
    (hip : p.SenderIP = IPv4zero) :
    processPacket c now p = ⟨c, [], []⟩ := by
  unfold processPacket
  by_cases hll : p.SenderIP.isLinkLocalUnicast = true ∨ p.TargetIP.isLinkLocalUnicast = true
  · rw [if_pos hll]
  · rw [if_neg hll, hf]
    simp [hop, hip]

/-- Spot check of `processPacket_probe_ignored`: a probe from an unseen MAC
against an empty table changes nothing. -/
theorem processPacket_probe_ignored_witness :
    findMACLocked (Handler.mk [] cfgFix true).table [9] = none ∧
    processPacket (Handler.mk [] cfgFix true) 3
        ⟨Operation.OperationRequest, [9], IPv4zero, [], ⟨192, 168, 0, 7⟩⟩ =
      ⟨Handler.mk [] cfgFix true, [], []⟩ :=
  ⟨by decide,
    processPacket_probe_ignored (Handler.mk [] cfgFix true) 3
      ⟨Operation.OperationRequest, [9], IPv4zero, [], ⟨192, 168, 0, 7⟩⟩
      (by decide) (by decide) (by decide)⟩

/-- Claim C8: a frame whose sender or target IP is link-local-unicast-scoped
is fully ignored: the handler (hence every Entry, including LastUpdate) is
unchanged and no event or reply is produced. -/
theorem processPacket_linkLocal_ignored (c : Handler) (now : Nat) (p : Packet)
    (h : p.SenderIP.isLinkLocalUnicast = true ∨ p.TargetIP.isLinkLocalUnicast = true) :
    processPacket c now p = ⟨c, [], []⟩ := by
  unfold processPacket
  rw [if_pos h]

/-- Spot check of `processPacket_linkLocal_ignored` on a frame from
169.254.0.1. -/
theorem processPacket_linkLocal_ignored_witness :
    ((⟨169, 254, 0, 1⟩ : IPv4).isLinkLocalUnicast = true ∨
      (⟨192, 168, 0, 1⟩ : IPv4).isLinkLocalUnicast = true) ∧
    processPacket (Handler.mk [huntClient] cfgFix true) 4
        ⟨Operation.OperationRequest, [2], ⟨169, 254, 0, 1⟩, [], ⟨192, 168, 0, 1⟩⟩ =
      ⟨Handler.mk [huntClient] cfgFix true, [], []⟩ :=
  ⟨Or.inl (by decide),
    processPacket_linkLocal_ignored (Handler.mk [huntClient] cfgFix true) 4
      ⟨Operation.OperationRequest, [2], ⟨169, 254, 0, 1⟩, [], ⟨192, 168, 0, 1⟩⟩
      (Or.inl (by decide))⟩

/-- Claim C9: a frame whose sender Entry is in VirtualHost state is discarded
before any further processing: the handler is unchanged (in particular the
Entry's LastUpdate is not refreshed) and no reply or event is produced. -/
theorem processPacket_virtualSender_ignored (c : Handler) (now : Nat) (p : Packet)
    (idx : Nat) (e : Entry)
    (hf : findMACLocked c.table p.SenderHardwareAddr = some idx)
    (hget : c.table[idx]? = some e)
    (hs : e.State = EntryState.StateVirtualHost) :
    processPacket c now p = ⟨c, [], []⟩ := by
  unfold processPacket
  by_cases hll : p.SenderIP.isLinkLocalUnicast = true ∨ p.TargetIP.isLinkLocalUnicast = true
  · rw [if_pos hll]
  · rw [if_neg hll, hf]
    show processFound c now p idx 0 = ⟨c, [], []⟩
    unfold processFound
    rw [hget]
    simp [hs]

/-- Spot check of `processPacket_virtualSender_ignored`: a looped-back frame
from a virtual entry's MAC is dropped without any state change. -/
theorem processPacket_virtualSender_ignored_witness :
    findMACLocked (Handler.mk [⟨[9], ⟨10, 0, 0, 9⟩, EntryState.StateVirtualHost, false, 0⟩] cfgFix true).table [9] = some 0 ∧
    processPacket (Handler.mk [⟨[9], ⟨10, 0, 0, 9⟩, EntryState.StateVirtualHost, false, 0⟩] cfgFix true) 5
        ⟨Operation.OperationRequest, [9], ⟨10, 0, 0, 9⟩, [], ⟨10, 0, 0, 9⟩⟩ =
      ⟨Handler.mk [⟨[9], ⟨10, 0, 0, 9⟩, EntryState.StateVirtualHost, false, 0⟩] cfgFix true, [], []⟩ :=
  ⟨by decide,
    processPacket_virtualSender_ignored
      (Handler.mk [⟨[9], ⟨10, 0, 0, 9⟩, EntryState.StateVirtualHost, false, 0⟩] cfgFix true) 5
      ⟨Operation.OperationRequest, [9], ⟨10, 0, 0, 9⟩, [], ⟨10, 0, 0, 9⟩⟩ 0
      ⟨[9], ⟨10, 0, 0, 9⟩, EntryState.StateVirtualHost, false, 0⟩
      (by decide) (by decide) (by decide)⟩

/-- Claim C3 counterexample: a request frame whose target IP matches a
registered VirtualHost Entry but whose sender is itself that virtual Entry
(the engine's own impersonation traffic looping back) is discarded by the
VirtualHost-sender check before the virtual-target check runs, so no reply
at all is sent — the short-circuit is not independent of the sender's
state. -/
theorem processPacket_virtualTarget_cex :
    (FindVirtualIP (Handler.mk [vHost] cfgFix true).table
        (Packet.mk Operation.OperationRequest [9] ⟨192, 168, 0, 9⟩ [] ⟨192, 168, 0, 9⟩).TargetIP).isSome = true ∧
    (Packet.mk Operation.OperationRequest [9] ⟨192, 168, 0, 9⟩ [] ⟨192, 168, 0, 9⟩).Op =
      Operation.OperationRequest ∧
    (processPacket (Handler.mk [vHost] cfgFix true) 5
        (Packet.mk Operation.OperationRequest [9] ⟨192, 168, 0, 9⟩ [] ⟨192, 168, 0, 9⟩)).replies = [] := by
  decide

/-- Claim C3 (amended): for an inbound request frame, not link-local
filtered, whose sender already has a table Entry that is not in VirtualHost
state, if the frame's target IP matches a registered VirtualHost Entry the
engine sends exactly one ARP reply asserting that IP is at the virtual MAC,
addressed to the network broadcast address, and performs no further Host
Table mutation for that frame beyond the sender's LastUpdate refresh, and
emits no event.  (For a frame from an unseen MAC the reply is still sent but
the frame also creates a new Entry and emits an online event; for a sender
in VirtualHost state the frame is discarded with no reply.) -/
theorem processPacket_virtualTarget_reply (c : Handler) (now : Nat) (p : Packet)
    (idx : Nat) (s t : Entry)
    (hll1 : p.SenderIP.isLinkLocalUnicast = false)
    (hll2 : p.TargetIP.isLinkLocalUnicast = false)
    (hf : findMACLocked c.table p.SenderHardwareAddr = some idx)
    (hget : c.table[idx]? = some s)
    (hs : ¬ s.State = EntryState.StateVirtualHost)
    (hop : p.Op = Operation.OperationRequest)
    (hv : FindVirtualIP c.table p.TargetIP = some t) :
    processPacket c now p =
      ⟨{ c with table := c.table.set idx { s with LastUpdate := now } }, [],
        [⟨t.MAC, t.IP, EthernetBroadcast, t.IP⟩]⟩ := by
  have hcond : ¬ (p.SenderIP.isLinkLocalUnicast = true ∨ p.TargetIP.isLinkLocalUnicast = true) := by
    simp [hll1, hll2]
  have hv2 : FindVirtualIP (c.table.set idx { s with LastUpdate := now }) p.TargetIP = some t := by
    unfold FindVirtualIP at hv ⊢
    rw [find?_set_of_not _ c.table idx s _ hget (by simp [hs]) (by simp [hs])]
    exact hv
  simp only [processPacket, if_neg hcond, hf, processFound, hget, if_neg hs, dispatch, hop, hv2,
    List.set_set]
  simp

/-- Spot check of `processPacket_virtualTarget_reply`: a request from the
known online client for the virtual IP 192.168.0.9 yields exactly one
broadcast reply from the virtual MAC and only a LastUpdate refresh. -/
theorem processPacket_virtualTarget_reply_witness :
    FindVirtualIP (Handler.mk [obsClient, vHost] cfgFix true).table ⟨192, 168, 0, 9⟩ = some vHost ∧
    processPacket (Handler.mk [obsClient, vHost] cfgFix true) 7
        (Packet.mk Operation.OperationRequest [3] ⟨192, 168, 0, 3⟩ [] ⟨192, 168, 0, 9⟩) =
      ⟨{ Handler.mk [obsClient, vHost] cfgFix true with
          table := (Handler.mk [obsClient, vHost] cfgFix true).table.set 0
            { obsClient with LastUpdate := 7 } }, [],
        [⟨vHost.MAC, vHost.IP, EthernetBroadcast, vHost.IP⟩]⟩ :=
  ⟨by decide,
    processPacket_virtualTarget_reply (Handler.mk [obsClient, vHost] cfgFix true) 7
      (Packet.mk Operation.OperationRequest [3] ⟨192, 168, 0, 3⟩ [] ⟨192, 168, 0, 9⟩)
      0 obsClient vHost (by decide) (by decide) (by decide) (by decide) (by decide)
      (by decide) (by decide)⟩

/-- Claim C5 counterexample: a request from an unseen MAC with a non-zero,
non-link-local sender IP but a link-local target IP is discarded by the
link-local filter, so no Entry is created and no event is emitted, against
the claim's promise of exactly one new Entry and one online notification. -/
theorem processPacket_newHost_cex :
    findMACLocked (Handler.mk [] cfgFix true).table [9] = none ∧
    ¬ (⟨192, 168, 0, 7⟩ : IPv4) = IPv4zero ∧
    (⟨192, 168, 0, 7⟩ : IPv4).isLinkLocalUnicast = false ∧
    (processPacket (Handler.mk [] cfgFix true) 3
        (Packet.mk Operation.OperationRequest [9] ⟨192, 168, 0, 7⟩ [] ⟨169, 254, 1, 1⟩)).handler.table = [] ∧
    (processPacket (Handler.mk [] cfgFix true) 3
        (Packet.mk Operation.OperationRequest [9] ⟨192, 168, 0, 7⟩ [] ⟨169, 254, 1, 1⟩)).events = [] := by
  decide

/-- Claim C5 (amended): a request frame whose sender MAC is absent from the
table, whose sender IP is non-zero and not link-local, and whose target IP
is also not link-local, creates exactly one new Entry in Normal state with
the observed MAC and IP (appended at the end of the table, marked online
with LastUpdate set to the processing time) and emits exactly one online
state-change event for it, delivered to the notification channel when one
is registered. -/
theorem processPacket_newHost (c : Handler) (now : Nat) (p : Packet)
    (hll1 : p.SenderIP.isLinkLocalUnicast = false)
    (hll2 : p.TargetIP.isLinkLocalUnicast = false)
    (hf : findMACLocked c.table p.SenderHardwareAddr = none)
    (hop : p.Op = Operation.OperationRequest)
    (hip : ¬ p.SenderIP = IPv4zero) :
    (processPacket c now p).handler.table =
      c.table ++ [⟨p.SenderHardwareAddr, p.SenderIP, EntryState.StateNormal, true, now⟩] ∧
    (processPacket c now p).events =
      [⟨⟨p.SenderHardwareAddr, p.SenderIP, EntryState.StateNormal, true, now⟩, true⟩] := by
  have hcond : ¬ (p.SenderIP.isLinkLocalUnicast = true ∨ p.TargetIP.isLinkLocalUnicast = true) := by
    simp [hll1, hll2]
  have hprobe : ¬ (p.Op = Operation.OperationRequest ∧ p.SenderIP = IPv4zero) :=
    fun hc => hip hc.2
  simp only [processPacket, if_neg hcond, hf, if_neg hprobe, arpTableAppendLocked, processFound,
    List.getElem?_concat_length, dispatch, hop, set_concat_length]
  cases hvt : FindVirtualIP
      (c.table ++ [⟨p.SenderHardwareAddr, p.SenderIP, EntryState.StateNormal, false, now⟩])
      p.TargetIP with
  | some tgt =>
    simp [hip, set_concat_length]
  | none =>
    simp only [actionUpdateClient_snd_fresh]
    have hpos : 0 < 1 + (actionUpdateClient c.config
        ⟨p.SenderHardwareAddr, p.SenderIP, EntryState.StateNormal, false, now⟩
        p.SenderHardwareAddr p.SenderIP).1 :=
      Nat.lt_of_lt_of_le Nat.zero_lt_one (Nat.le_add_right 1 _)
    simp [hip, hpos, set_concat_length]

/-- Spot check of `processPacket_newHost`: a first request from MAC 09 at
192.168.0.7 creates the online Normal entry and one online event. -/
theorem processPacket_newHost_witness :
    findMACLocked (Handler.mk [] cfgFix true).table [9] = none ∧
    (processPacket (Handler.mk [] cfgFix true) 3
        (Packet.mk Operation.OperationRequest [9] ⟨192, 168, 0, 7⟩ [] ⟨192, 168, 0, 1⟩)).handler.table =
      (Handler.mk [] cfgFix true).table ++
        [⟨[9], ⟨192, 168, 0, 7⟩, EntryState.StateNormal, true, 3⟩] ∧
    (processPacket (Handler.mk [] cfgFix true) 3
        (Packet.mk Operation.OperationRequest [9] ⟨192, 168, 0, 7⟩ [] ⟨192, 168, 0, 1⟩)).events =
      [⟨⟨[9], ⟨192, 168, 0, 7⟩, EntryState.StateNormal, true, 3⟩, true⟩] :=
  ⟨by decide,
    (processPacket_newHost (Handler.mk [] cfgFix true) 3
        (Packet.mk Operation.OperationRequest [9] ⟨192, 168, 0, 7⟩ [] ⟨192, 168, 0, 1⟩)
        (by decide) (by decide) (by decide) (by decide) (by decide)).1,
    (processPacket_newHost (Handler.mk [] cfgFix true) 3
        (Packet.mk Operation.OperationRequest [9] ⟨192, 168, 0, 7⟩ [] ⟨192, 168, 0, 1⟩)
        (by decide) (by decide) (by decide) (by decide) (by decide)).2⟩

/-- Claim C7 counterexample: delivering the same (MAC, IP) reply twice to an
already-online Normal Entry produces no event on the second delivery, but
the Entry does change: its LastUpdate field is refreshed to the second
processing time, so "no Entry change" fails. -/
theorem processPacket_second_delivery_cex :
    (processPacket (processPacket (Handler.mk [obsClient] cfgFix true) 1 replySame).handler
        2 replySame).events = [] ∧
    ¬ (processPacket (processPacket (Handler.mk [obsClient] cfgFix true) 1 replySame).handler
          2 replySame).handler.table =
        (processPacket (Handler.mk [obsClient] cfgFix true) 1 replySame).handler.table := by
  decide

/-- Claim C7 (amended): processing a reply carrying the stored IP for an
Entry that is already Online and in Normal state produces no event and no
Entry change apart from the LastUpdate refresh; actionUpdateClient returns
0 (entry unchanged) when the sender IP equals the stored IP and the Entry
is Online. -/
theorem processPacket_idempotent_reply (c : Handler) (now : Nat) (p : Packet)
    (idx : Nat) (e : Entry)
    (hll1 : p.SenderIP.isLinkLocalUnicast = false)
    (hll2 : p.TargetIP.isLinkLocalUnicast = false)
    (hf : findMACLocked c.table p.SenderHardwareAddr = some idx)
    (hget : c.table[idx]? = some e)
    (hs : e.State = EntryState.StateNormal)
    (hOn : e.Online = true)
    (hip : e.IP = p.SenderIP)
    (hop : p.Op = Operation.OperationReply) :
    actionUpdateClient c.config { e with LastUpdate := now } p.SenderHardwareAddr p.SenderIP =
      (0, { e with LastUpdate := now }) ∧
    processPacket c now p =
      ⟨{ c with table := c.table.set idx { e with LastUpdate := now } }, [], []⟩ := by
  have hcond : ¬ (p.SenderIP.isLinkLocalUnicast = true ∨ p.TargetIP.isLinkLocalUnicast = true) := by
    simp [hll1, hll2]
  have hvirt : ¬ e.State = EntryState.StateVirtualHost := by
    rw [hs]; intro hc; cases hc
  have hupd : actionUpdateClient c.config { e with LastUpdate := now }
      p.SenderHardwareAddr p.SenderIP = (0, { e with LastUpdate := now }) := by
    unfold actionUpdateClient
    rw [if_pos (Or.inl ⟨hip, hOn⟩)]
  refine ⟨hupd, ?_⟩
  simp only [processPacket, if_neg hcond, hf, processFound, hget, if_neg hvirt, dispatch, hop,
    hupd, List.set_set]
  simp [hs, hupd]

/-- Spot check of `processPacket_idempotent_reply`: redelivering obsClient's
own binding refreshes only LastUpdate and emits nothing. -/
theorem processPacket_idempotent_reply_witness :
    obsClient.Online = true ∧ obsClient.IP = replySame.SenderIP ∧
    processPacket (Handler.mk [obsClient] cfgFix true) 2 replySame =
      ⟨{ Handler.mk [obsClient] cfgFix true with
          table := (Handler.mk [obsClient] cfgFix true).table.set 0
            { obsClient with LastUpdate := 2 } }, [], []⟩ :=
  ⟨by decide, by decide,
    (processPacket_idempotent_reply (Handler.mk [obsClient] cfgFix true) 2 replySame 0 obsClient
        (by decide) (by decide) (by decide) (by decide) (by decide) (by decide) (by decide)
        (by decide)).2⟩

/-- Claim C10: frame processing never takes an Entry from Online to offline:
for every processed frame, an Entry that was Online beforehand is still
present at its index and Online afterwards (the ingest path only ever sets
Online from false to true, in the notify block). -/
theorem processPacket_online_monotone (c : Handler) (now : Nat) (p : Packet)
    (i : Nat) (e : Entry) (hget : c.table[i]? = some e) (hOn : e.Online = true) :
    ∃ e2, (processPacket c now p).handler.table[i]? = some e2 ∧ e2.Online = true := by
  unfold processPacket
  split
  · exact ⟨e, hget, hOn⟩
  · split
    next hf =>
      split
      · exact ⟨e, hget, hOn⟩
      · refine processFound_online _ now p c.table.length 1 i e ?_ hOn
        show (arpTableAppendLocked c.table EntryState.StateNormal
          p.SenderHardwareAddr p.SenderIP now)[i]? = some e
        unfold arpTableAppendLocked
        rw [List.getElem?_append_left (getq_lt hget)]
        exact hget
    next idx hf =>
      exact processFound_online c now p idx 0 i e hget hOn

/-- Spot check of `processPacket_online_monotone`: the online obsClient stays
online across an arbitrary frame. -/
theorem processPacket_online_monotone_witness :
    (Handler.mk [obsClient] cfgFix true).table[0]? = some obsClient ∧
    ∃ e2,
      (processPacket (Handler.mk [obsClient] cfgFix true) 4
          (Packet.mk Operation.OperationRequest [3] ⟨192, 168, 0, 6⟩ [] ⟨192, 168, 0, 1⟩)).handler.table[0]? =
        some e2 ∧ e2.Online = true :=
  ⟨by decide,
    processPacket_online_monotone (Handler.mk [obsClient] cfgFix true) 4
      (Packet.mk Operation.OperationRequest [3] ⟨192, 168, 0, 6⟩ [] ⟨192, 168, 0, 1⟩)
      0 obsClient (by decide) (by decide)⟩

end Arp
